import Mathlib

/-!
Verification of the Generic Agent (src/agent.py): a shallow embedding of the
MCP-tool-augmented conversation loop in `GenericAgent.run`, the provider
dispatch in `GenericAgent.call_mcp_tool`, the tool-result serialization, and
the cleanup path of `run_agent_from_json`.

The completion API and the MCP transport are external collaborators: the API
is modelled as a script of responses consumed one per call, and each connected
MCP session is modelled by the observable outcomes of its `list_tools`,
`call_tool` and `close` operations.  Python values that flow through
`json.dumps` / `str` are modelled by `JValue`, where the `pyobj` constructor
stands for an arbitrary Python object that `json.dumps` rejects and `str`
renders.
-/

namespace GenericAgent

/-- Model of a Python value as seen by `json.dumps` and `str`.
`pyobj r` is a Python object that is not JSON-serializable; `r` is its
`str()` rendering, which always exists. -/
inductive JValue where
  | null : JValue
  | bool : Bool → JValue
  | num : Int → JValue
  | str : String → JValue
  | arr : List JValue → JValue
  | obj : List (String × JValue) → JValue
  | pyobj : String → JValue
deriving Repr

mutual

/-- Model of `json.dumps`: total on JSON-representable values, fails (raises
TypeError in Python) exactly when a non-serializable object occurs anywhere
inside the value. -/
def jsonDumps : JValue → Option String
  | .null => some "null"
  | .bool b => some (if b then "true" else "false")
  | .num n => some (toString n)
  | .str s => some ("\"" ++ s ++ "\"")
  | .arr xs =>
    match jsonDumpsList xs with
    | some s => some ("[" ++ s ++ "]")
    | none => none
  | .obj kvs =>
    match jsonDumpsObj kvs with
    | some s => some ("\x7b" ++ s ++ "\x7d")
    | none => none
  | .pyobj _ => none

def jsonDumpsList : List JValue → Option String
  | [] => some ""
  | v :: rest =>
    match jsonDumps v, jsonDumpsList rest with
    | some s, some t => some (s ++ "," ++ t)
    | _, _ => none

def jsonDumpsObj : List (String × JValue) → Option String
  | [] => some ""
  | (k, v) :: rest =>
    match jsonDumps v, jsonDumpsObj rest with
    | some s, some t => some ("\"" ++ k ++ "\":" ++ s ++ "," ++ t)
    | _, _ => none

end

mutual

/-- Model of Python `str()` applied to a value: total, never fails. -/
def py_str : JValue → String
  | .null => "None"
  | .bool b => if b then "True" else "False"
  | .num n => toString n
  | .str s => s
  | .arr xs => "[" ++ py_str_list xs ++ "]"
  | .obj kvs => "\x7b" ++ py_str_obj kvs ++ "\x7d"
  | .pyobj r => r

def py_str_list : List JValue → String
  | [] => ""
  | v :: rest => py_str v ++ "," ++ py_str_list rest

def py_str_obj : List (String × JValue) → String
  | [] => ""
  | (k, v) :: rest => k ++ ":" ++ py_str v ++ "," ++ py_str_obj rest

end

/-- Whether a value is a Python `str` (the `isinstance(tool_result, str)` test). -/
def is_str : JValue → Bool
  | .str _ => true
  | _ => false

/-- agent.py lines 188-196: serialize a tool result.  A string is used as-is;
otherwise `json.dumps` is attempted and, if it fails, the code falls back to
`str(tool_result)`. -/
def serialize_result (tool_result : JValue) : String :=
  match tool_result with
  | .str s => s
  | v =>
    match jsonDumps v with
    | some s => s
    | none => py_str v

/-- One tool as advertised by an MCP server (`list_tools` item). -/
structure MCPTool where
  name : String
  description : Option String
  inputSchema : JValue

/-- One tool in the Anthropic API format built by `get_mcp_tools`. -/
structure AnthropicTool where
  name : String
  description : String
  input_schema : JValue

/-- Observable behaviour of one connected MCP session.
`list_tools` is `none` when listing raises; `call_tool name input` is `none`
when the call raises (including when the tool does not exist on this server);
`close_ok` is whether `close()` succeeds. -/
structure MCPSession where
  list_tools : Option (List MCPTool)
  call_tool : String → JValue → Option JValue
  close_ok : Bool

/-- Configuration of one MCP server (class MCPServerConfig). -/
structure MCPServerConfig where
  command : String
  args : List String
  env : Option (List (String × String))

/-- Agent configuration (class AgentConfig).  The sampling temperature is a
float that the verified properties never touch, so it is omitted. -/
structure AgentConfig where
  model : String
  max_tokens : Nat
  mcp_servers : List MCPServerConfig

/-- The run payload (class AgentPayload); `context` is an optional dict. -/
structure AgentPayload where
  config : AgentConfig
  task : String
  context : Option (List (String × JValue))

/-- agent.py lines 59-81, `connect_mcp_servers`: iterate the configured
servers in order; a successful connect appends the session, a failed connect
is logged and skipped.  The `connect` argument is the environment: the
outcome of attempting to connect each configured server. -/
def connect_mcp_servers (connect : MCPServerConfig → Option MCPSession)
    (servers : List MCPServerConfig) : List MCPSession :=
  servers.filterMap connect

/-- agent.py lines 83-106, `get_mcp_tools`: collect the advertised tools of
every session, in session order; a session whose `list_tools` raises is
logged and contributes nothing. -/
def get_mcp_tools (sessions : List MCPSession) : List AnthropicTool :=
  sessions.foldl
    (fun tools s =>
      match s.list_tools with
      | some ts =>
        tools ++ ts.map (fun t =>
          { name := t.name, description := t.description.getD "",
            input_schema := t.inputSchema })
      | none => tools)
    []

/-- The error message of the ValueError raised when no server serves a tool
(agent.py line 128); it names the tool. -/
def not_found_message (tool_name : String) : String :=
  "Tool " ++ tool_name ++ " not found on any connected MCP server"

/-- agent.py lines 108-128, `call_mcp_tool`: try each session in registration
order; the first `call_tool` that does not raise supplies the result; if every
session raises, a ValueError naming the tool is raised. -/
def call_mcp_tool (sessions : List MCPSession) (tool_name : String)
    (tool_input : JValue) : Except String JValue :=
  match sessions with
  | [] => .error (not_found_message tool_name)
  | s :: rest =>
    match s.call_tool tool_name tool_input with
    | some result => .ok result
    | none => call_mcp_tool rest tool_name tool_input

/-- One content block of a completion-API response: a text block or a
tool-use block carrying (id, name, input). -/
inductive ContentBlock where
  | text : String → ContentBlock
  | tool_use : String → String → JValue → ContentBlock

/-- Token-usage counters of one completion-API response. -/
structure Usage where
  input_tokens : Nat
  output_tokens : Nat

/-- One completion-API response: stop reason, content blocks, usage. -/
structure ApiResponse where
  stop_reason : String
  content : List ContentBlock
  usage : Usage

/-- Content of one conversation message: the initial user message is plain
text, an assistant message carries the full response content, and a
tool-result user message carries one tool_result block (tool_use_id,
serialized payload) as built at agent.py lines 198-207. -/
inductive MsgContent where
  | text : String → MsgContent
  | blocks : List ContentBlock → MsgContent
  | tool_result : String → String → MsgContent

/-- One conversation message. -/
structure Message where
  role : String
  content : MsgContent

/-- One observed call to `self.client.messages.create`: the messages sent and
the `tools` parameter (`none` when the parameter is absent, `some ts` when it
is passed). -/
structure ApiCall where
  messages : List Message
  tools : Option (List AnthropicTool)

/-- The dictionary returned by `GenericAgent.run` (agent.py lines 234-242). -/
structure RunResult where
  response : String
  model : String
  stop_reason : String
  usage : Usage

/-- Observable trace of one run: the completion-API calls made, the tool
dispatches made (arguments of each `call_mcp_tool` invocation), the final
conversation, and the outcome (`.error e` models an uncaught exception
propagating out of `run`). -/
structure RunTrace where
  calls : List ApiCall
  dispatches : List (String × JValue)
  messages : List Message
  result : Except String RunResult

/-- agent.py lines 228-233: concatenate `block.text` over the blocks that
have a `text` attribute (exactly the text blocks), in order. -/
def extractText (content : List ContentBlock) : String :=
  content.foldl
    (fun acc b =>
      match b with
      | .text s => acc ++ s
      | .tool_use _ _ _ => acc)
    ""

/-- agent.py lines 170-173: `next((b for b in response.content if b.type ==
"tool_use"), None)`, projected to the fields the loop uses: (id, name, input). -/
def firstToolUse : List ContentBlock → Option (String × String × JValue)
  | [] => none
  | .tool_use id name input :: _ => some (id, name, input)
  | .text _ :: rest => firstToolUse rest

/-- Build the `RunResult` returned after the loop exits with `response` as the
final completion-API response (agent.py lines 228-242). -/
def finish_run (model : String) (calls : List ApiCall)
    (dispatches : List (String × JValue)) (messages : List Message)
    (response : ApiResponse) : RunTrace :=
  { calls := calls, dispatches := dispatches, messages := messages,
    result := .ok
      { response := extractText response.content, model := model,
        stop_reason := response.stop_reason, usage := response.usage } }

/-- The sentinel error used when the response script is exhausted: the model
of the black-box completion API always answers, so theorems never reach this
branch. -/
def no_response : String := "completion API gave no response"

/-- agent.py lines 168-218: the `while response.stop_reason == "tool_use"`
loop.  `response` is the response just received, `script` the completion-API
responses still to come, `calls` and `dispatches` the logs so far.  Each
iteration dispatches the first tool-use block (a dispatch failure propagates,
leaving the conversation as it was), appends the assistant message and the
tool-result user message, and makes the next API call with the same `tools`. -/
def agent_loop (model : String) (tools : List AnthropicTool)
    (sessions : List MCPSession) (script : List ApiResponse)
    (messages : List Message) (response : ApiResponse)
    (calls : List ApiCall) (dispatches : List (String × JValue)) : RunTrace :=
  if response.stop_reason == "tool_use" then
    match firstToolUse response.content with
    | some (id, name, input) =>
      match call_mcp_tool sessions name input with
      | .error e =>
        { calls := calls, dispatches := dispatches ++ [(name, input)],
          messages := messages, result := .error e }
      | .ok tool_result =>
        let messages := messages ++ [⟨"assistant", .blocks response.content⟩]
        let result_content := serialize_result tool_result
        let messages := messages ++ [⟨"user", .tool_result id result_content⟩]
        match script with
        | [] =>
          { calls := calls, dispatches := dispatches ++ [(name, input)],
            messages := messages, result := .error no_response }
        | r :: rest =>
          agent_loop model tools sessions rest messages r
            (calls ++ [⟨messages, some tools⟩])
            (dispatches ++ [(name, input)])
    | none => finish_run model calls dispatches messages response
  else
    finish_run model calls dispatches messages response

/-- agent.py lines 144-154: the initial one-message conversation.  The task
is the user content; a non-empty context dict is serialized with `json.dumps`
and appended — when that serialization raises, the exception propagates (the
`.error` case). -/
def build_initial_messages (payload : AgentPayload) :
    Except String (List Message) :=
  match payload.context with
  | none => .ok [⟨"user", .text payload.task⟩]
  | some ctx =>
    if ctx.isEmpty then .ok [⟨"user", .text payload.task⟩]
    else
      match jsonDumps (.obj ctx) with
      | none => .error "TypeError: Object of type set is not JSON serializable"
      | some s =>
        .ok [⟨"user",
          .text (payload.task ++ "\n\nAdditional context:\n" ++ s)⟩]

/-- agent.py lines 136-138 and 57: the sessions owned by the agent after
`run` has connected — servers are connected only when some are configured,
and failed connects are skipped. -/
def mcp_sessions_of (connect : MCPServerConfig → Option MCPSession)
    (config : AgentConfig) : List MCPSession :=
  if config.mcp_servers.isEmpty then []
  else connect_mcp_servers connect config.mcp_servers

/-- agent.py line 141: the tool catalog, empty when no session is connected. -/
def run_tools (connect : MCPServerConfig → Option MCPSession)
    (config : AgentConfig) : List AnthropicTool :=
  let sessions := mcp_sessions_of connect config
  if sessions.isEmpty then [] else get_mcp_tools sessions

/-- agent.py lines 130-242, `GenericAgent.run`.  `connect` gives the outcome
of connecting each configured server, `script` the successive completion-API
responses.  When `tools` is non-empty the first call passes `tools` and the
tool loop runs; otherwise a single call is made with no tools parameter. -/
def run (connect : MCPServerConfig → Option MCPSession)
    (script : List ApiResponse) (payload : AgentPayload) : RunTrace :=
  let sessions := mcp_sessions_of connect payload.config
  let tools := run_tools connect payload.config
  match build_initial_messages payload with
  | .error e =>
    { calls := [], dispatches := [],
      messages := [⟨"user", .text payload.task⟩], result := .error e }
  | .ok messages =>
    if tools.isEmpty then
      match script with
      | [] =>
        { calls := [], dispatches := [], messages := messages,
          result := .error no_response }
      | r :: _ =>
        { calls := [⟨messages, none⟩], dispatches := [], messages := messages,
          result := .ok
            { response := extractText r.content, model := payload.config.model,
              stop_reason := r.stop_reason, usage := r.usage } }
    else
      match script with
      | [] =>
        { calls := [], dispatches := [], messages := messages,
          result := .error no_response }
      | r :: rest =>
        agent_loop payload.config.model tools sessions rest messages r
          [⟨messages, some tools⟩] []

/-- agent.py lines 244-250, `GenericAgent.cleanup`: close every session in
order; a close that raises is logged and the iteration continues.  The result
records, per opened connection, whether its close succeeded. -/
def cleanup : List MCPSession → List Bool
  | [] => []
  | s :: rest => s.close_ok :: cleanup rest

/-- The observable outcome of `run_agent_from_json`: the run outcome and the
close attempts performed by cleanup. -/
structure AgentRunOutcome where
  result : Except String RunResult
  closes : List Bool

/-- agent.py lines 253-272, `run_agent_from_json`: run the agent and, on
every exit path (the `finally` block), clean up every opened connection. -/
def run_agent_from_json (connect : MCPServerConfig → Option MCPSession)
    (script : List ApiResponse) (payload : AgentPayload) : AgentRunOutcome :=
  let trace := run connect script payload
  { result := trace.result,
    closes := cleanup (mcp_sessions_of connect payload.config) }

/-! ### Spec-side definitions

These render the wording of the specification (concatenation of text blocks,
alternation of roles, assistant/tool-result pairing) independently of the
source functions, so that the theorems relate source behaviour to them. -/

/-- The concatenation, in order, of every text block of a content list
(the wording of the spec). -/
def concat_text_blocks : List ContentBlock → String
  | [] => ""
  | .text s :: rest => s ++ concat_text_blocks rest
  | .tool_use _ _ _ :: rest => concat_text_blocks rest

/-- Whether two consecutive messages form one tool turn: an assistant message
carrying blocks, immediately followed by a user message carrying the
tool-result block whose id answers the first tool invocation of those blocks. -/
def is_tool_turn_pair : Message → Message → Bool
  | ⟨ra, .blocks bs⟩, ⟨ru, .tool_result rid _⟩ =>
    ra == "assistant" && ru == "user" &&
      (match firstToolUse bs with
       | some (id, _, _) => id == rid
       | none => false)
  | _, _ => false

/-- Whether a message list is a sequence of complete tool turns. -/
def tool_turn_pairs : List Message → Bool
  | [] => true
  | [_] => false
  | a :: u :: rest => is_tool_turn_pair a u && tool_turn_pairs rest

/-- The conversation invariant of the spec: one initial plain-text user
message followed by complete tool turns. -/
def conversation_ok : List Message → Bool
  | ⟨role, .text _⟩ :: rest => role == "user" && tool_turn_pairs rest
  | _ => false

/-- Strict role alternation, starting from the expected role `role`. -/
def alternating_from (role : String) : List Message → Bool
  | [] => true
  | m :: rest =>
    m.role == role &&
      alternating_from (if role == "user" then "assistant" else "user") rest

/-- A completion response that drives one tool turn against `sessions`: it
stops for tool use, its content holds a tool-invocation block, and the
dispatch of that invocation succeeds. -/
def tool_turn_ok (sessions : List MCPSession) (r : ApiResponse) : Prop :=
  r.stop_reason = "tool_use" ∧
  ∃ id name input, firstToolUse r.content = some (id, name, input) ∧
    ∃ v, call_mcp_tool sessions name input = .ok v

/-! ### Supporting lemmas -/

/-- The text-extraction fold of agent.py lines 228-233 computes the
concatenation, in order, of every text block. -/
lemma extractText_foldl (c : List ContentBlock) : ∀ acc : String,
    List.foldl
      (fun acc b =>
        match b with
        | .text s => acc ++ s
        | .tool_use _ _ _ => acc)
      acc c
      = acc ++ concat_text_blocks c := by
  induction c with
  | nil => intro acc; simp [concat_text_blocks]
  | cons b rest ih =>
    intro acc
    cases b with
    | text s => simp [concat_text_blocks, ih, String.append_assoc]
    | tool_use id name input => simp [concat_text_blocks, ih]

/-- `extractText` equals the spec-side concatenation of the text blocks. -/
lemma extractText_eq (c : List ContentBlock) :
    extractText c = concat_text_blocks c := by
  unfold extractText
  rw [extractText_foldl]
  exact String.empty_append _

/-- A sequence of complete tool turns strictly alternates roles, starting
with an assistant message. -/
lemma tool_turn_pairs_alternating : ∀ l : List Message,
    tool_turn_pairs l = true → alternating_from "assistant" l = true
  | [], _ => rfl
  | [m], h => by simp [tool_turn_pairs] at h
  | a :: u :: rest, h => by
    rw [tool_turn_pairs] at h
    rw [Bool.and_eq_true] at h
    obtain ⟨hpair, hrest⟩ := h
    obtain ⟨ra, ca⟩ := a
    obtain ⟨ru, cu⟩ := u
    cases ca <;> cases cu <;>
      simp only [is_tool_turn_pair, Bool.and_eq_true, beq_iff_eq] at hpair <;>
      try exact Bool.noConfusion hpair
    case blocks.tool_result bs rid _ =>
      obtain ⟨⟨hra, hru⟩, _⟩ := hpair
      subst hra; subst hru
      simp only [alternating_from, beq_self_eq_true, Bool.true_and]
      rw [if_neg (by decide)]
      simp only [beq_self_eq_true, Bool.true_and]
      rw [if_pos (by decide)]
      exact tool_turn_pairs_alternating rest hrest

/-- The initial conversation is always a single plain-text user message. -/
lemma build_initial_messages_shape (payload : AgentPayload)
    (msgs : List Message) (h : build_initial_messages payload = .ok msgs) :
    ∃ s, msgs = [⟨"user", .text s⟩] := by
  unfold build_initial_messages at h
  split at h
  · injection h with h
    exact ⟨payload.task, h.symm⟩
  · split at h
    · injection h with h
      exact ⟨payload.task, h.symm⟩
    · split at h
      · cases h
      · next s _ =>
          injection h with h
          exact ⟨payload.task ++ "\n\nAdditional context:\n" ++ s, h.symm⟩

/-- Cleanup records one close attempt per opened connection. -/
lemma cleanup_length : ∀ sessions : List MCPSession,
    (cleanup sessions).length = sessions.length
  | [] => rfl
  | _ :: rest => by simp [cleanup, cleanup_length rest]

/-- One successful iteration of the tool loop: dispatch the first invocation,
append the assistant message and the tool-result user message, make the next
API call with the same tools. -/
lemma agent_loop_step (model : String) (tools : List AnthropicTool)
    (sessions : List MCPSession) (r : ApiResponse) (rest : List ApiResponse)
    (msgs : List Message) (response : ApiResponse) (calls : List ApiCall)
    (disp : List (String × JValue))
    (hstop : response.stop_reason = "tool_use")
    (id name : String) (input v : JValue)
    (hfirst : firstToolUse response.content = some (id, name, input))
    (hcall : call_mcp_tool sessions name input = .ok v) :
    agent_loop model tools sessions (r :: rest) msgs response calls disp =
      agent_loop model tools sessions rest
        (msgs ++ [⟨"assistant", .blocks response.content⟩,
                  ⟨"user", .tool_result id (serialize_result v)⟩])
        r
        (calls ++ [⟨msgs ++ [⟨"assistant", .blocks response.content⟩,
                             ⟨"user", .tool_result id (serialize_result v)⟩],
                    some tools⟩])
        (disp ++ [(name, input)]) := by
  rw [agent_loop]
  simp [hstop, hfirst, hcall]

/-- When the response does not stop for tool use, the loop exits and the run
finishes with that response. -/
lemma agent_loop_done (model : String) (tools : List AnthropicTool)
    (sessions : List MCPSession) (script : List ApiResponse)
    (msgs : List Message) (response : ApiResponse) (calls : List ApiCall)
    (disp : List (String × JValue))
    (hstop : response.stop_reason ≠ "tool_use") :
    agent_loop model tools sessions script msgs response calls disp =
      finish_run model calls disp msgs response := by
  rw [agent_loop]
  simp [hstop]

/-- When the response stops for tool use but its content carries no
tool-invocation block, the loop exits defensively with that response. -/
lemma agent_loop_defensive (model : String) (tools : List AnthropicTool)
    (sessions : List MCPSession) (script : List ApiResponse)
    (msgs : List Message) (response : ApiResponse) (calls : List ApiCall)
    (disp : List (String × JValue))
    (hstop : response.stop_reason = "tool_use")
    (hfirst : firstToolUse response.content = none) :
    agent_loop model tools sessions script msgs response calls disp =
      finish_run model calls disp msgs response := by
  rw [agent_loop]
  simp [hstop, hfirst]

/-- Behaviour of the tool loop on a script of tool-turn responses followed by
one terminal response: per tool turn, one API call, one dispatch and one
assistant/tool-result pair of messages; the run finishes with the terminal
response. -/
lemma agent_loop_run_spec (model : String) (tools : List AnthropicTool)
    (sessions : List MCPSession) (terminal : ApiResponse)
    (hterm : terminal.stop_reason ≠ "tool_use") :
    ∀ (tu : List ApiResponse) (r0 : ApiResponse),
    tool_turn_ok sessions r0 → (∀ r ∈ tu, tool_turn_ok sessions r) →
    ∀ (msgs : List Message) (calls : List ApiCall)
      (disp : List (String × JValue)),
    ∃ tail : List Message,
      (agent_loop model tools sessions (tu ++ [terminal]) msgs r0
          calls disp).calls.length = calls.length + (tu.length + 1) ∧
      (agent_loop model tools sessions (tu ++ [terminal]) msgs r0
          calls disp).dispatches.length = disp.length + (tu.length + 1) ∧
      (agent_loop model tools sessions (tu ++ [terminal]) msgs r0
          calls disp).messages = msgs ++ tail ∧
      (agent_loop model tools sessions (tu ++ [terminal]) msgs r0
          calls disp).result = .ok
        { response := extractText terminal.content, model := model,
          stop_reason := terminal.stop_reason, usage := terminal.usage } ∧
      tail.length = 2 * (tu.length + 1) ∧
      tool_turn_pairs tail = true := by
  intro tu
  induction tu with
  | nil =>
    intro r0 h0 _ msgs calls disp
    obtain ⟨hstop, id, name, input, hfirst, v, hcall⟩ := h0
    rw [List.nil_append]
    rw [agent_loop_step model tools sessions terminal [] msgs r0 calls disp
          hstop id name input v hfirst hcall]
    rw [agent_loop_done model tools sessions [] _ terminal _ _ hterm]
    refine ⟨[⟨"assistant", .blocks r0.content⟩,
             ⟨"user", .tool_result id (serialize_result v)⟩],
            ?_, ?_, ?_, rfl, rfl, ?_⟩
    · simp [finish_run]
    · simp [finish_run]
    · simp [finish_run]
    · simp [tool_turn_pairs, is_tool_turn_pair, hfirst]
  | cons r1 tu ih =>
    intro r0 h0 htu msgs calls disp
    obtain ⟨hstop, id, name, input, hfirst, v, hcall⟩ := h0
    rw [List.cons_append]
    rw [agent_loop_step model tools sessions r1 (tu ++ [terminal]) msgs r0
          calls disp hstop id name input v hfirst hcall]
    obtain ⟨tail, hcalls, hdisp, hmsgs, hres, htail, hpairs⟩ :=
      ih r1 (htu r1 (by simp)) (fun r hr => htu r (by simp [hr]))
        (msgs ++ [⟨"assistant", .blocks r0.content⟩,
                  ⟨"user", .tool_result id (serialize_result v)⟩])
        (calls ++ [⟨msgs ++ [⟨"assistant", .blocks r0.content⟩,
                             ⟨"user", .tool_result id (serialize_result v)⟩],
                    some tools⟩])
        (disp ++ [(name, input)])
    refine ⟨⟨"assistant", .blocks r0.content⟩ ::
            ⟨"user", .tool_result id (serialize_result v)⟩ :: tail,
            ?_, ?_, ?_, hres, ?_, ?_⟩
    · rw [hcalls]; simp; omega
    · rw [hdisp]; simp; omega
    · rw [hmsgs]; simp
    · simp [htail]; omega
    · simp only [tool_turn_pairs, Bool.and_eq_true]
      refine ⟨?_, hpairs⟩
      simp [is_tool_turn_pair, hfirst]

/-! ### Concrete inputs used by the witnesses -/

/-- The failing input of claim C1: a context dict holding a Python object
that `json.dumps` rejects (for example a `set`). -/
def unserializable_payload : AgentPayload :=
  { config := { model := "claude-3-5-sonnet-20241022", max_tokens := 4096,
                mcp_servers := [] },
    task := "What is 2+2?",
    context := some [("data", .pyobj "set()")] }

/-- A payload with zero configured tool providers. -/
def no_tools_payload : AgentPayload :=
  { config := { model := "claude-3-5-sonnet-20241022", max_tokens := 4096,
                mcp_servers := [] },
    task := "What is 2+2?", context := none }

/-- A terminal completion response with one text block. -/
def plain_response : ApiResponse :=
  { stop_reason := "end_turn", content := [.text "4"],
    usage := { input_tokens := 12, output_tokens := 3 } }

/-- A provider advertising tool X and serving it. -/
def provider_one : MCPSession :=
  { list_tools := some [⟨"X", some "tool X", .null⟩],
    call_tool := fun n _ =>
      if n == "X" then some (.str "from provider one") else none,
    close_ok := true }

/-- A second provider also advertising tool X. -/
def provider_two : MCPSession :=
  { list_tools := some [⟨"X", some "tool X", .null⟩],
    call_tool := fun n _ =>
      if n == "X" then some (.str "from provider two") else none,
    close_ok := true }

/-- A provider whose close() raises. -/
def failing_close_session : MCPSession :=
  { list_tools := some [], call_tool := fun _ _ => none, close_ok := false }

/-- A payload configuring two MCP servers. -/
def two_server_payload : AgentPayload :=
  { config := { model := "claude-3-5-sonnet-20241022", max_tokens := 4096,
                mcp_servers := [⟨"cmd1", [], none⟩, ⟨"cmd2", [], none⟩] },
    task := "t", context := none }

/-- A connect outcome giving the first server a session whose close fails
and the second a healthy session. -/
def two_session_connect : MCPServerConfig → Option MCPSession :=
  fun c => if c.command == "cmd1" then some failing_close_session
           else some provider_one

/-! ### Claim theorems -/

/-- Claim C1 (code bug): agent.py line 153 serializes the task context with
an unguarded `json.dumps`, so a context holding a non-serializable object
makes `run` raise before any completion-API call — the run crashes instead of
treating the context as absent, contradicting the spec. -/
theorem c1_unserializable_context_crashes :
    (∃ e, (run (fun _ => none) [] unserializable_payload).result = .error e) ∧
    (run (fun _ => none) [] unserializable_payload).calls = [] :=
  ⟨⟨"TypeError: Object of type set is not JSON serializable", rfl⟩, rfl⟩

/-- Claim C2: with zero configured tool providers, the run makes exactly one
completion-API call and that call carries no tools parameter at all. -/
theorem c2_no_providers_single_call_without_tools
    (connect : MCPServerConfig → Option MCPSession) (payload : AgentPayload)
    (r : ApiResponse) (rest : List ApiResponse) (msgs : List Message)
    (hservers : payload.config.mcp_servers = [])
    (hmsgs : build_initial_messages payload = .ok msgs) :
    (run connect (r :: rest) payload).calls = [⟨msgs, none⟩] := by
  have hs : mcp_sessions_of connect payload.config = [] := by
    unfold mcp_sessions_of
    rw [hservers]
    simp
  have ht : run_tools connect payload.config = [] := by
    unfold run_tools
    rw [hs]
    simp
  simp [run, hmsgs, ht]

/-- Witness for C2: a concrete no-provider run makes exactly the one
tools-free call. -/
theorem c2_witness :
    (run (fun _ => none) [plain_response] no_tools_payload).calls =
      [⟨[⟨"user", .text "What is 2+2?"⟩], none⟩] :=
  c2_no_providers_single_call_without_tools (fun _ => none) no_tools_payload
    plain_response [] [⟨"user", .text "What is 2+2?"⟩] rfl rfl

/-- Claim C3: when the first completion response does not stop for tool use,
the run terminates after exactly one completion-API call and returns the
concatenation, in order, of every text block of that response. -/
theorem c3_non_tool_use_single_call
    (connect : MCPServerConfig → Option MCPSession) (payload : AgentPayload)
    (r : ApiResponse) (rest : List ApiResponse) (msgs : List Message)
    (hmsgs : build_initial_messages payload = .ok msgs)
    (hstop : r.stop_reason ≠ "tool_use") :
    (run connect (r :: rest) payload).calls.length = 1 ∧
    (run connect (r :: rest) payload).result = .ok
      { response := concat_text_blocks r.content,
        model := payload.config.model,
        stop_reason := r.stop_reason, usage := r.usage } := by
  cases ht : (run_tools connect payload.config).isEmpty with
  | true =>
    constructor <;> simp [run, hmsgs, ht, extractText_eq]
  | false =>
    have hdone := agent_loop_done payload.config.model
      (run_tools connect payload.config)
      (mcp_sessions_of connect payload.config) rest msgs r
      [⟨msgs, some (run_tools connect payload.config)⟩] [] hstop
    constructor <;> simp [run, hmsgs, ht, hdone, finish_run, extractText_eq]

/-- Witness for C3: a concrete terminal-response run. -/
theorem c3_witness :
    (run (fun _ => none) [plain_response] no_tools_payload).calls.length = 1 ∧
    (run (fun _ => none) [plain_response] no_tools_payload).result = .ok
      { response := concat_text_blocks plain_response.content,
        model := no_tools_payload.config.model,
        stop_reason := plain_response.stop_reason,
        usage := plain_response.usage } :=
  c3_non_tool_use_single_call (fun _ => none) no_tools_payload plain_response
    [] [⟨"user", .text "What is 2+2?"⟩] rfl (by decide)

/-- Claim C6: tool dispatch tries the connected providers in registration
order — the first provider whose call does not fail supplies the result (so
with P1 and P2 both advertising a tool, P1 wins), a failing provider is
skipped in favour of the rest, and when every provider fails the dispatch
fails with the not-found error, whose message names the tool. -/
theorem c6_dispatch_first_provider_wins :
    (∀ (p1 : MCPSession) (rest : List MCPSession) (name : String)
        (input v : JValue), p1.call_tool name input = some v →
        call_mcp_tool (p1 :: rest) name input = .ok v) ∧
    (∀ (p1 : MCPSession) (rest : List MCPSession) (name : String)
        (input : JValue), p1.call_tool name input = none →
        call_mcp_tool (p1 :: rest) name input =
          call_mcp_tool rest name input) ∧
    (∀ (sessions : List MCPSession) (name : String) (input : JValue),
        (∀ s ∈ sessions, s.call_tool name input = none) →
        call_mcp_tool sessions name input =
          .error (not_found_message name)) ∧
    (∀ name : String, ∃ pre post : String,
        not_found_message name = pre ++ name ++ post) := by
  refine ⟨?_, ?_, ?_, ?_⟩
  · intro p1 rest name input v h
    rw [call_mcp_tool, h]
  · intro p1 rest name input h
    rw [call_mcp_tool, h]
  · intro sessions name input h
    induction sessions with
    | nil => rfl
    | cons s rest ih =>
      rw [call_mcp_tool, h s (by simp)]
      exact ih (fun x hx => h x (by simp [hx]))
  · intro name
    exact ⟨"Tool ", " not found on any connected MCP server", rfl⟩

/-- Witness for C6: with P1 and P2 both advertising tool X, dispatching X
returns the result of P1. -/
theorem c6_witness :
    call_mcp_tool [provider_one, provider_two] "X" .null =
      .ok (.str "from provider one") :=
  c6_dispatch_first_provider_wins.1 provider_one [provider_two] "X" .null
    (.str "from provider one") rfl

/-- Claim C7: an already-text tool result is appended unchanged; a structured
(non-text) result is serialized without ever raising — either the structured
encoding succeeds, or the unconditional string-conversion fallback is used. -/
theorem c7_serialize_result_contract :
    (∀ s : String, serialize_result (.str s) = s) ∧
    (∀ (v : JValue) (s : String), is_str v = false → jsonDumps v = some s →
        serialize_result v = s) ∧
    (∀ v : JValue, jsonDumps v = none → serialize_result v = py_str v) := by
  refine ⟨fun s => rfl, ?_, ?_⟩
  · intro v s hstr hd
    cases v
    case str => simp [is_str] at hstr
    all_goals simp [serialize_result, hd]
  · intro v hd
    cases v
    case str => simp [jsonDumps] at hd
    all_goals simp [serialize_result, hd]

/-- Witness for C7: a non-serializable structured result degrades to its
string conversion. -/
theorem c7_witness :
    serialize_result (.pyobj "<set object>") = "<set object>" :=
  c7_serialize_result_contract.2.2 (.pyobj "<set object>") rfl

/-- Claim C9: on every exit path of `run_agent_from_json`, a close is
attempted for every connection that was opened; one failing close is recorded
for its own connection only and does not prevent the remaining closes. -/
theorem c9_cleanup_on_every_exit_path
    (connect : MCPServerConfig → Option MCPSession)
    (script : List ApiResponse) (payload : AgentPayload) :
    (run_agent_from_json connect script payload).closes.length =
      (mcp_sessions_of connect payload.config).length ∧
    (∀ (s : MCPSession) (rest : List MCPSession),
        cleanup (s :: rest) = s.close_ok :: cleanup rest) := by
  refine ⟨?_, fun s rest => rfl⟩
  simp [run_agent_from_json, cleanup_length]

/-- Witness for C9: with two opened connections, the first of which fails to
close, both closes are attempted. -/
theorem c9_witness :
    (run_agent_from_json two_session_connect [] two_server_payload).closes.length =
      (mcp_sessions_of two_session_connect two_server_payload.config).length ∧
    cleanup [failing_close_session, provider_one] =
      failing_close_session.close_ok :: cleanup [provider_one] :=
  ⟨(c9_cleanup_on_every_exit_path two_session_connect [] two_server_payload).1,
   (c9_cleanup_on_every_exit_path two_session_connect [] two_server_payload).2
     failing_close_session [provider_one]⟩

/-! ### Multi-turn claim theorems -/

/-- Claim C4: with N consecutive tool-use responses (each carrying a
tool-invocation block whose dispatch succeeds) followed by one terminal
response, the run makes exactly N+1 completion-API calls and N tool
dispatches, and the conversation grows by exactly 2 messages per tool turn
from its initial single message. -/
theorem c4_tool_turn_counts
    (connect : MCPServerConfig → Option MCPSession) (payload : AgentPayload)
    (tu : List ApiResponse) (terminal : ApiResponse) (msgs : List Message)
    (hmsgs : build_initial_messages payload = .ok msgs)
    (htools : (run_tools connect payload.config).isEmpty = false)
    (htu : ∀ r ∈ tu, tool_turn_ok (mcp_sessions_of connect payload.config) r)
    (hterm : terminal.stop_reason ≠ "tool_use") :
    (run connect (tu ++ [terminal]) payload).calls.length = tu.length + 1 ∧
    (run connect (tu ++ [terminal]) payload).dispatches.length = tu.length ∧
    (run connect (tu ++ [terminal]) payload).messages.length =
      1 + 2 * tu.length := by
  obtain ⟨s, hshape⟩ := build_initial_messages_shape payload msgs hmsgs
  cases tu with
  | nil =>
    have hrun : run connect ([] ++ [terminal]) payload =
        agent_loop payload.config.model (run_tools connect payload.config)
          (mcp_sessions_of connect payload.config) [] msgs terminal
          [⟨msgs, some (run_tools connect payload.config)⟩] [] := by
      simp [run, hmsgs, htools]
    have hdone := agent_loop_done payload.config.model
      (run_tools connect payload.config)
      (mcp_sessions_of connect payload.config) [] msgs terminal
      [⟨msgs, some (run_tools connect payload.config)⟩] [] hterm
    rw [hrun, hdone]
    refine ⟨rfl, rfl, ?_⟩
    simp [finish_run, hshape]
  | cons r0 tu' =>
    have hrun : run connect ((r0 :: tu') ++ [terminal]) payload =
        agent_loop payload.config.model (run_tools connect payload.config)
          (mcp_sessions_of connect payload.config) (tu' ++ [terminal]) msgs r0
          [⟨msgs, some (run_tools connect payload.config)⟩] [] := by
      simp [run, hmsgs, htools]
    obtain ⟨tail, hcalls, hdisp, hmsgs2, hres, htail, hpairs⟩ :=
      agent_loop_run_spec payload.config.model
        (run_tools connect payload.config)
        (mcp_sessions_of connect payload.config) terminal hterm tu' r0
        (htu r0 (by simp)) (fun r hr => htu r (by simp [hr]))
        msgs [⟨msgs, some (run_tools connect payload.config)⟩] []
    refine ⟨?_, ?_, ?_⟩
    · rw [hrun, hcalls]
      simp only [List.length_cons, List.length_nil]
      omega
    · rw [hrun, hdisp]
      simp only [List.length_cons, List.length_nil]
      omega
    · rw [hrun, hmsgs2]
      simp only [List.length_append, hshape, htail, List.length_cons,
        List.length_nil]
      try omega

/-- Claim C5: the conversation of a run is the initial plain-text user
message followed by complete assistant/tool-result turns — roles strictly
alternate starting from the user, every tool-result message is a user message
placed immediately after the assistant message holding the invocation it
answers, and the final conversation extends the initial one (append-only). -/
theorem c5_conversation_alternation
    (connect : MCPServerConfig → Option MCPSession) (payload : AgentPayload)
    (tu : List ApiResponse) (terminal : ApiResponse) (msgs : List Message)
    (hmsgs : build_initial_messages payload = .ok msgs)
    (htools : (run_tools connect payload.config).isEmpty = false)
    (htu : ∀ r ∈ tu, tool_turn_ok (mcp_sessions_of connect payload.config) r)
    (hterm : terminal.stop_reason ≠ "tool_use") :
    conversation_ok (run connect (tu ++ [terminal]) payload).messages = true ∧
    alternating_from "user"
      (run connect (tu ++ [terminal]) payload).messages = true ∧
    (∃ tail, (run connect (tu ++ [terminal]) payload).messages =
      msgs ++ tail) := by
  obtain ⟨s, hshape⟩ := build_initial_messages_shape payload msgs hmsgs
  cases tu with
  | nil =>
    have hrun : run connect ([] ++ [terminal]) payload =
        agent_loop payload.config.model (run_tools connect payload.config)
          (mcp_sessions_of connect payload.config) [] msgs terminal
          [⟨msgs, some (run_tools connect payload.config)⟩] [] := by
      simp [run, hmsgs, htools]
    have hdone := agent_loop_done payload.config.model
      (run_tools connect payload.config)
      (mcp_sessions_of connect payload.config) [] msgs terminal
      [⟨msgs, some (run_tools connect payload.config)⟩] [] hterm
    rw [hrun, hdone]
    refine ⟨?_, ?_, ⟨[], ?_⟩⟩ <;>
      simp [finish_run, hshape, conversation_ok, tool_turn_pairs,
        alternating_from]
  | cons r0 tu' =>
    have hrun : run connect ((r0 :: tu') ++ [terminal]) payload =
        agent_loop payload.config.model (run_tools connect payload.config)
          (mcp_sessions_of connect payload.config) (tu' ++ [terminal]) msgs r0
          [⟨msgs, some (run_tools connect payload.config)⟩] [] := by
      simp [run, hmsgs, htools]
    obtain ⟨tail, hcalls, hdisp, hmsgs2, hres, htail, hpairs⟩ :=
      agent_loop_run_spec payload.config.model
        (run_tools connect payload.config)
        (mcp_sessions_of connect payload.config) terminal hterm tu' r0
        (htu r0 (by simp)) (fun r hr => htu r (by simp [hr]))
        msgs [⟨msgs, some (run_tools connect payload.config)⟩] []
    rw [hrun, hmsgs2, hshape]
    refine ⟨?_, ?_, ⟨tail, rfl⟩⟩
    · simp [conversation_ok, hpairs]
    · simp only [List.cons_append, List.nil_append, alternating_from,
        beq_self_eq_true, Bool.true_and]
      rw [if_pos (by decide)]
      exact tool_turn_pairs_alternating tail hpairs

/-- Claim C8: when a response stops for tool use, only the first
tool-invocation block of its content is dispatched, even if several are
present; and when such a response carries no tool-invocation block at all,
the loop exits early after that single call, dispatching nothing and
returning the text blocks present. -/
theorem c8_first_invocation_and_defensive_exit :
    (∀ (connect : MCPServerConfig → Option MCPSession)
        (payload : AgentPayload) (r terminal : ApiResponse)
        (msgs : List Message) (id name : String) (input v : JValue),
        build_initial_messages payload = .ok msgs →
        (run_tools connect payload.config).isEmpty = false →
        r.stop_reason = "tool_use" →
        firstToolUse r.content = some (id, name, input) →
        call_mcp_tool (mcp_sessions_of connect payload.config) name input =
          .ok v →
        terminal.stop_reason ≠ "tool_use" →
        (run connect [r, terminal] payload).dispatches = [(name, input)] ∧
        (run connect [r, terminal] payload).calls.length = 2) ∧
    (∀ (connect : MCPServerConfig → Option MCPSession)
        (payload : AgentPayload) (r : ApiResponse) (rest : List ApiResponse)
        (msgs : List Message),
        build_initial_messages payload = .ok msgs →
        (run_tools connect payload.config).isEmpty = false →
        r.stop_reason = "tool_use" →
        firstToolUse r.content = none →
        (run connect (r :: rest) payload).calls.length = 1 ∧
        (run connect (r :: rest) payload).dispatches = [] ∧
        (run connect (r :: rest) payload).result = .ok
          { response := concat_text_blocks r.content,
            model := payload.config.model,
            stop_reason := r.stop_reason, usage := r.usage }) := by
  constructor
  · intro connect payload r terminal msgs id name input v hmsgs htools hstop
      hfirst hcall hterm
    have hrun : run connect [r, terminal] payload =
        agent_loop payload.config.model (run_tools connect payload.config)
          (mcp_sessions_of connect payload.config) [terminal] msgs r
          [⟨msgs, some (run_tools connect payload.config)⟩] [] := by
      simp [run, hmsgs, htools]
    rw [hrun,
      agent_loop_step payload.config.model (run_tools connect payload.config)
        (mcp_sessions_of connect payload.config) terminal [] msgs r
        [⟨msgs, some (run_tools connect payload.config)⟩] [] hstop
        id name input v hfirst hcall,
      agent_loop_done payload.config.model (run_tools connect payload.config)
        (mcp_sessions_of connect payload.config) [] _ terminal _ _ hterm]
    exact ⟨rfl, rfl⟩
  · intro connect payload r rest msgs hmsgs htools hstop hfirst
    have hrun : run connect (r :: rest) payload =
        agent_loop payload.config.model (run_tools connect payload.config)
          (mcp_sessions_of connect payload.config) rest msgs r
          [⟨msgs, some (run_tools connect payload.config)⟩] [] := by
      simp [run, hmsgs, htools]
    rw [hrun,
      agent_loop_defensive payload.config.model
        (run_tools connect payload.config)
        (mcp_sessions_of connect payload.config) rest msgs r
        [⟨msgs, some (run_tools connect payload.config)⟩] [] hstop hfirst]
    exact ⟨rfl, rfl, by simp [finish_run, extractText_eq]⟩

/-- Claim C10: the usage counters of the returned result are exactly those of
the final completion response; usage of the earlier tool-turn responses is
not accumulated. -/
theorem c10_usage_from_final_response
    (connect : MCPServerConfig → Option MCPSession) (payload : AgentPayload)
    (tu : List ApiResponse) (terminal : ApiResponse) (msgs : List Message)
    (hmsgs : build_initial_messages payload = .ok msgs)
    (htools : (run_tools connect payload.config).isEmpty = false)
    (htu : ∀ r ∈ tu, tool_turn_ok (mcp_sessions_of connect payload.config) r)
    (hterm : terminal.stop_reason ≠ "tool_use") :
    (run connect (tu ++ [terminal]) payload).result.map RunResult.usage =
      .ok terminal.usage := by
  cases tu with
  | nil =>
    have hdone := agent_loop_done payload.config.model
      (run_tools connect payload.config)
      (mcp_sessions_of connect payload.config) [] msgs terminal
      [⟨msgs, some (run_tools connect payload.config)⟩] [] hterm
    simp [run, hmsgs, htools, hdone, finish_run, Except.map]
  | cons r0 tu' =>
    have hrun : run connect ((r0 :: tu') ++ [terminal]) payload =
        agent_loop payload.config.model (run_tools connect payload.config)
          (mcp_sessions_of connect payload.config) (tu' ++ [terminal]) msgs r0
          [⟨msgs, some (run_tools connect payload.config)⟩] [] := by
      simp [run, hmsgs, htools]
    obtain ⟨tail, hcalls, hdisp, hmsgs2, hres, htail, hpairs⟩ :=
      agent_loop_run_spec payload.config.model
        (run_tools connect payload.config)
        (mcp_sessions_of connect payload.config) terminal hterm tu' r0
        (htu r0 (by simp)) (fun r hr => htu r (by simp [hr]))
        msgs [⟨msgs, some (run_tools connect payload.config)⟩] []
    rw [hrun, hres]
    rfl

/-! ### Concrete inputs for the multi-turn witnesses -/

/-- A session advertising and serving the tool `search`. -/
def search_session : MCPSession :=
  { list_tools := some [⟨"search", some "web search", .null⟩],
    call_tool := fun n _ =>
      if n == "search" then some (.obj [("result", .str "y")]) else none,
    close_ok := true }

/-- A connect outcome that yields the search session. -/
def sample_connect : MCPServerConfig → Option MCPSession :=
  fun _ => some search_session

/-- A payload configuring one MCP server. -/
def sample_payload : AgentPayload :=
  { config := { model := "claude-3-5-sonnet-20241022", max_tokens := 4096,
                mcp_servers := [⟨"npx", ["server"], none⟩] },
    task := "find x", context := none }

/-- A tool-use response whose content carries two tool-invocation blocks. -/
def search_response : ApiResponse :=
  { stop_reason := "tool_use",
    content := [.text "let me search",
                .tool_use "toolu_01" "search" (.obj [("query", .str "x")]),
                .tool_use "toolu_02" "search" (.obj [("query", .str "z")])],
    usage := { input_tokens := 100, output_tokens := 50 } }

/-- The terminal response following the tool turn. -/
def end_response : ApiResponse :=
  { stop_reason := "end_turn", content := [.text "the answer is y"],
    usage := { input_tokens := 200, output_tokens := 10 } }

/-- A tool-use response with no tool-invocation block (malformed). -/
def malformed_response : ApiResponse :=
  { stop_reason := "tool_use", content := [.text "no tool call"],
    usage := { input_tokens := 5, output_tokens := 5 } }

/-- The tool-turn hypothesis for `search_response` against the sample setup. -/
lemma search_response_turn_ok :
    ∀ r ∈ [search_response],
      tool_turn_ok (mcp_sessions_of sample_connect sample_payload.config) r := by
  intro r hr
  simp only [List.mem_singleton] at hr
  subst hr
  exact ⟨rfl, "toolu_01", "search", .obj [("query", .str "x")], rfl,
         .obj [("result", .str "y")], rfl⟩

/-- Witness for C4: one tool turn then a terminal response gives 2 API calls,
1 dispatch, and a conversation of 3 messages. -/
theorem c4_witness :
    (run sample_connect [search_response, end_response]
        sample_payload).calls.length = 2 ∧
    (run sample_connect [search_response, end_response]
        sample_payload).dispatches.length = 1 ∧
    (run sample_connect [search_response, end_response]
        sample_payload).messages.length = 3 :=
  c4_tool_turn_counts sample_connect sample_payload [search_response]
    end_response [⟨"user", .text "find x"⟩] rfl rfl
    search_response_turn_ok (by decide)

/-- Witness for C5: the concrete one-tool-turn conversation satisfies the
alternation invariant. -/
theorem c5_witness :
    conversation_ok (run sample_connect [search_response, end_response]
      sample_payload).messages = true ∧
    alternating_from "user" (run sample_connect
      [search_response, end_response] sample_payload).messages = true :=
  ⟨(c5_conversation_alternation sample_connect sample_payload
      [search_response] end_response [⟨"user", .text "find x"⟩] rfl rfl
      search_response_turn_ok (by decide)).1,
   (c5_conversation_alternation sample_connect sample_payload
      [search_response] end_response [⟨"user", .text "find x"⟩] rfl rfl
      search_response_turn_ok (by decide)).2.1⟩

/-- Witness for C8: of the two invocation blocks of `search_response` only
the first is dispatched; and the malformed tool-use response exits after one
call with no dispatch, returning its text. -/
theorem c8_witness :
    ((run sample_connect [search_response, end_response]
        sample_payload).dispatches =
          [("search", .obj [("query", .str "x")])] ∧
     (run sample_connect [search_response, end_response]
        sample_payload).calls.length = 2) ∧
    ((run sample_connect [malformed_response] sample_payload).calls.length
        = 1 ∧
     (run sample_connect [malformed_response] sample_payload).dispatches
        = [] ∧
     (run sample_connect [malformed_response] sample_payload).result = .ok
       { response := concat_text_blocks malformed_response.content,
         model := sample_payload.config.model,
         stop_reason := malformed_response.stop_reason,
         usage := malformed_response.usage }) :=
  ⟨c8_first_invocation_and_defensive_exit.1 sample_connect sample_payload
     search_response end_response [⟨"user", .text "find x"⟩] "toolu_01"
     "search" (.obj [("query", .str "x")]) (.obj [("result", .str "y")])
     rfl rfl rfl rfl rfl (by decide),
   c8_first_invocation_and_defensive_exit.2 sample_connect sample_payload
     malformed_response [] [⟨"user", .text "find x"⟩] rfl rfl rfl rfl⟩

/-- Witness for C10: the reported usage is that of the terminal response
(200/10), not accumulated with the tool turn usage (100/50). -/
theorem c10_witness :
    (run sample_connect [search_response, end_response]
        sample_payload).result.map RunResult.usage =
      .ok end_response.usage :=
  c10_usage_from_final_response sample_connect sample_payload
    [search_response] end_response [⟨"user", .text "find x"⟩] rfl rfl
    search_response_turn_ok (by decide)

end GenericAgent
